import Mathlib

/-!
Verification development for the GrandSlam authentication core of the
isideload repository.  Machine bytes are modelled as `Nat` values below 256,
32-bit words as `Nat` values reduced modulo `2^32`, and byte strings as
`List Nat`.  The cryptographic primitives used by the source
(`sha2::Sha256`, `hmac::Hmac<Sha256>`, `pbkdf2::pbkdf2`, `hex::encode`)
are implemented concretely; the AES block ciphers are abstracted as
function parameters, since the claims under study only concern how the
source selects keys, IVs, modes and inputs for them.
-/

/-- Modulus for 32-bit words. -/
def M32 : Nat := 4294967296

/-- Right rotation of a 32-bit word, expressed arithmetically. -/
def rotr (n x : Nat) : Nat := (x / 2 ^ n + x % 2 ^ n * 2 ^ (32 - n)) % M32

/-- Logical right shift of a 32-bit word. -/
def shr32 (n x : Nat) : Nat := x / 2 ^ n

/-- Bitwise complement of a 32-bit word. -/
def not32 (x : Nat) : Nat := 4294967295 - x % M32

/-- SHA-256 big sigma 0. -/
def bsig0 (x : Nat) : Nat := rotr 2 x ^^^ rotr 13 x ^^^ rotr 22 x

/-- SHA-256 big sigma 1. -/
def bsig1 (x : Nat) : Nat := rotr 6 x ^^^ rotr 11 x ^^^ rotr 25 x

/-- SHA-256 small sigma 0. -/
def ssig0 (x : Nat) : Nat := rotr 7 x ^^^ rotr 18 x ^^^ shr32 3 x

/-- SHA-256 small sigma 1. -/
def ssig1 (x : Nat) : Nat := rotr 17 x ^^^ rotr 19 x ^^^ shr32 10 x

/-- SHA-256 choice function. -/
def chF (x y z : Nat) : Nat := (x &&& y) ^^^ (not32 x &&& z)

/-- SHA-256 majority function. -/
def majF (x y z : Nat) : Nat := (x &&& y) ^^^ (x &&& z) ^^^ (y &&& z)

/-- Big-endian bytes of a number, keeping exactly `n` low bytes. -/
def toBytesBE : Nat → Nat → List Nat
  | 0, _ => []
  | k + 1, x => toBytesBE k (x / 256) ++ [x % 256]

/-- Big-endian 32-bit word read from a byte list. -/
def be32 (bytes : List Nat) : Nat := bytes.foldl (fun acc b => acc * 256 + b % 256) 0

/-- Concatenation of a list of byte lists. -/
def concatAll : List (List Nat) → List Nat
  | [] => []
  | x :: xs => x ++ concatAll xs

/-- Pointwise XOR of two byte lists (truncating to the shorter). -/
def xorBytes (a b : List Nat) : List Nat := List.zipWith (fun x y => x ^^^ y) a b

/-- UTF-8 encoding of a single code point. -/
def utf8Char (c : Nat) : List Nat :=
  if c < 128 then [c]
  else if c < 2048 then [192 + c / 64, 128 + c % 64]
  else if c < 65536 then [224 + c / 4096, 128 + c / 64 % 64, 128 + c % 64]
  else [240 + c / 262144, 128 + c / 4096 % 64, 128 + c / 64 % 64, 128 + c % 64]

/-- UTF-8 bytes of a Lean string, modelling Rust `str::as_bytes`. -/
def strBytes (s : String) : List Nat := concatAll (s.data.map (fun c => utf8Char c.toNat))

/-- ASCII code of the lowercase hex digit for a nibble. -/
def hexNibble (n : Nat) : Nat := if n < 10 then 48 + n else 87 + n

/-- Lowercase hex encoding of a byte list as ASCII bytes, modelling
`hex::encode(..).into_bytes()`. -/
def hexLower (bs : List Nat) : List Nat :=
  concatAll (bs.map (fun b => [hexNibble (b / 16 % 16), hexNibble (b % 16)]))

/-- State of the SHA-256 compression function: eight 32-bit words. -/
structure Hash8 where
  a : Nat
  b : Nat
  c : Nat
  d : Nat
  e : Nat
  f : Nat
  g : Nat
  h : Nat

/-- Initial SHA-256 hash state. -/
def sha256H0 : Hash8 :=
  ⟨1779033703, 3144134277, 1013904242, 2773480762,
   1359893119, 2600822924, 528734635, 1541459225⟩

/-- The 64 SHA-256 round constants. -/
def shaK : List Nat :=
  [1116352408, 1899447441, 3049323471, 3921009573, 961987163,
   1508970993, 2453635748, 2870763221, 3624381080, 310598401,
   607225278, 1426881987, 1925078388, 2162078206, 2614888103,
   3248222580, 3835390401, 4022224774, 264347078, 604807628,
   770255983, 1249150122, 1555081692, 1996064986, 2554220882,
   2821834349, 2952996808, 3210313671, 3336571891, 3584528711,
   113926993, 338241895, 666307205, 773529912, 1294757372,
   1396182291, 1695183700, 1986661051, 2177026350, 2456956037,
   2730485921, 2820302411, 3259730800, 3345764771, 3516065817,
   3600352804, 4094571909, 275423344, 430227734, 506948616,
   659060556, 883997877, 958139571, 1322822218, 1537002063,
   1747873779, 1955562222, 2024104815, 2227730452, 2361852424,
   2428436474, 2756734187, 3204031479, 3329325298]

/-- Read `k` big-endian 32-bit words from a byte list. -/
def words16 : Nat → List Nat → List Nat
  | 0, _ => []
  | k + 1, l => be32 (l.take 4) :: words16 k (l.drop 4)

/-- Extend the 16-word message schedule by `k` further words. -/
def extendW : Nat → List Nat → List Nat
  | 0, w => w
  | k + 1, w =>
    let n := w.length
    let nw := (ssig1 (w.getD (n - 2) 0) + w.getD (n - 7) 0 +
               ssig0 (w.getD (n - 15) 0) + w.getD (n - 16) 0) % M32
    extendW k (w ++ [nw])

/-- One round of the SHA-256 compression function. -/
def compressStep (st : Hash8) (kw : Nat × Nat) : Hash8 :=
  let t1 := (st.h + bsig1 st.e + chF st.e st.f st.g + kw.1 + kw.2) % M32
  let t2 := (bsig0 st.a + majF st.a st.b st.c) % M32
  ⟨(t1 + t2) % M32, st.a, st.b, st.c, (st.d + t1) % M32, st.e, st.f, st.g⟩

/-- Process one 64-byte block. -/
def compressBlock (st : Hash8) (block : List Nat) : Hash8 :=
  let w := extendW 48 (words16 16 block)
  let r := (shaK.zip w).foldl compressStep st
  ⟨(st.a + r.a) % M32, (st.b + r.b) % M32, (st.c + r.c) % M32, (st.d + r.d) % M32,
   (st.e + r.e) % M32, (st.f + r.f) % M32, (st.g + r.g) % M32, (st.h + r.h) % M32⟩

/-- SHA-256 padding: 0x80, zeros to 56 mod 64, then the 64-bit bit length. -/
def padMsg (msg : List Nat) : List Nat :=
  let L := msg.length
  msg ++ 128 :: (List.replicate ((119 - L % 64) % 64) 0 ++ toBytesBE 8 (8 * L))

/-- Split a byte list into `k` 64-byte blocks. -/
def blocks64 : Nat → List Nat → List (List Nat)
  | 0, _ => []
  | k + 1, l => l.take 64 :: blocks64 k (l.drop 64)

/-- Serialize the hash state to 32 big-endian bytes. -/
def hash8Bytes (st : Hash8) : List Nat :=
  toBytesBE 4 st.a ++ toBytesBE 4 st.b ++ toBytesBE 4 st.c ++ toBytesBE 4 st.d ++
  toBytesBE 4 st.e ++ toBytesBE 4 st.f ++ toBytesBE 4 st.g ++ toBytesBE 4 st.h

/-- SHA-256 of a byte list, modelling `sha2::Sha256::digest`. -/
def sha256 (msg : List Nat) : List Nat :=
  let padded := padMsg msg
  hash8Bytes ((blocks64 (padded.length / 64) padded).foldl compressBlock sha256H0)

/-- HMAC-SHA256, modelling `hmac::Hmac<Sha256>` with its 64-byte block size. -/
def hmacSha256 (key msg : List Nat) : List Nat :=
  let k0 := if key.length > 64 then sha256 key else key
  let k1 := k0 ++ List.replicate (64 - k0.length) 0
  sha256 (k1.map (fun b => b ^^^ 92) ++ sha256 (k1.map (fun b => b ^^^ 54) ++ msg))

/-- Iteration tail of one PBKDF2 block: XOR-accumulate `k` further HMAC rounds. -/
def pbkdf2Go (p : List Nat) : Nat → List Nat → List Nat → List Nat
  | 0, _, acc => acc
  | k + 1, u, acc =>
    let u' := hmacSha256 p u
    pbkdf2Go p k u' (xorBytes acc u')

/-- One PBKDF2 output block (1-based index `i`), modelling the `pbkdf2`
crate, whose inner loop runs `rounds - 1` times after the first HMAC. -/
def pbkdf2Block (p s : List Nat) (c i : Nat) : List Nat :=
  let u1 := hmacSha256 p (s ++ toBytesBE 4 i)
  pbkdf2Go p (c - 1) u1 u1

/-- PBKDF2-HMAC-SHA256 with `c` iterations and `dkLen` output bytes. -/
def pbkdf2HmacSha256 (p s : List Nat) (c dkLen : Nat) : List Nat :=
  (concatAll ((List.range ((dkLen + 31) / 32)).map
    (fun i => pbkdf2Block p s c (i + 1)))).take dkLen

/-- Plist values, modelling the `plist::Value` variants the claims touch. -/
inductive PValue : Type where
  | string : String → PValue
  | integer : Int → PValue
  | boolean : Bool → PValue
  | data : List Nat → PValue
  | array : List PValue → PValue
  | dict : List (String × PValue) → PValue

/-- A plist dictionary: ordered key-value pairs with unique keys, modelling
`plist::Dictionary`. -/
abbrev PDict := List (String × PValue)

/-- Dictionary lookup, modelling `plist::Dictionary::get`. -/
def dGet : PDict → String → Option PValue
  | [], _ => none
  | (k', v) :: rest, k => if k' = k then some v else dGet rest k

/-- Model of `plist::Value::as_string`. -/
def asString : PValue → Option String
  | .string s => some s
  | _ => none

/-- Model of `plist::Value::as_dictionary`. -/
def asDict : PValue → Option PDict
  | .dict d => some d
  | _ => none

/-- Model of `plist::Value::as_data`. -/
def asData : PValue → Option (List Nat)
  | .data d => some d
  | _ => none

/-- Model of `plist::Value::as_signed_integer`. -/
def asSignedInteger : PValue → Option Int
  | .integer i => some i
  | _ => none

/-- Errors of the authentication core.  `rootcause` reports are dynamic in
the source; each constructor corresponds to one distinguishable error value
produced there.  `authWithMessage` models the typed
`SideloadError::AuthWithMessage` variant (the enum declaration is outside
the packaged sources; its shape is visible at the construction site in
`check_grandslam_error`).  `reportTooShort n` models the ad-hoc report
"Encrypted token is too short to be valid (only n bytes)" and
`reportUnknownFormat hdr` the ad-hoc report
"Encrypted token is in an unknown format: hdr" raised by `decrypt_gcm`. -/
inductive AuthErr : Type where
  | missingKey (kind key : String)
  | authWithMessage (ec : Int) (em : String)
  | negotiationFailed
  | maxLoginAttempts
  | extraStep (s : String)
  | no2FACode
  | invalidLength
  | unpadError
  | reportTooShort (n : Nat)
  | reportUnknownFormat (hdr : List Nat)
deriving DecidableEq

/-- Model of `PlistDataExtract::get_str` (and `get_string`, which only
clones the result). -/
def get_str (d : PDict) (k : String) : Except AuthErr String :=
  match (dGet d k).bind asString with
  | some s => .ok s
  | none => .error (.missingKey "string" k)

/-- Model of `PlistDataExtract::get_data`. -/
def get_data (d : PDict) (k : String) : Except AuthErr (List Nat) :=
  match (dGet d k).bind asData with
  | some s => .ok s
  | none => .error (.missingKey "data" k)

/-- Model of `PlistDataExtract::get_dict`. -/
def get_dict (d : PDict) (k : String) : Except AuthErr PDict :=
  match (dGet d k).bind asDict with
  | some s => .ok s
  | none => .error (.missingKey "dictionary" k)

/-- Model of `PlistDataExtract::get_signed_integer`. -/
def get_signed_integer (d : PDict) (k : String) : Except AuthErr Int :=
  match (dGet d k).bind asSignedInteger with
  | some s => .ok s
  | none => .error (.missingKey "signed integer" k)

/-- Model of `get_signed_integer(k).unwrap_or(dflt)`. -/
def getSignedIntegerOr (d : PDict) (k : String) (dflt : Int) : Int :=
  ((dGet d k).bind asSignedInteger).getD dflt

/-- Model of `get_str(k).unwrap_or(dflt)`. -/
def getStrOr (d : PDict) (k : String) (dflt : String) : String :=
  ((dGet d k).bind asString).getD dflt

/-- The dictionary `check_grandslam_error` inspects: the `Status`
sub-dictionary when present, the dictionary itself otherwise. -/
def grandslamInspected (d : PDict) : PDict :=
  match dGet d "Status" with
  | some (.dict s) => s
  | _ => d

/-- Model of `GrandSlamErrorChecker::check_grandslam_error`
(src/isideload/src/auth/grandslam.rs lines 193-209). -/
def check_grandslam_error (d : PDict) : Except AuthErr PDict :=
  let result := grandslamInspected d
  if getSignedIntegerOr result "ec" 0 ≠ 0 then
    .error (.authWithMessage (getSignedIntegerOr result "ec" (-1))
      (getStrOr result "em" "Unknown error"))
  else
    .ok d

/-- Login state of an account, modelling `LoginState` in
src/isideload/src/auth/apple_account.rs. -/
inductive LoginState : Type where
  | LoggedIn
  | NeedsDevice2FA
  | NeedsSMS2FA
  | NeedsExtraStep (s : String)
  | NeedsLogin
deriving DecidableEq

/-- Interpretation of the step-2 `Status` dictionary, modelling the tail of
`login_inner` (src/isideload/src/auth/apple_account.rs lines 499-508): a
string `au` selects the 2FA path, anything else falls through to
`LoggedIn`. -/
def interpret_au (status : PDict) : LoginState :=
  match dGet status "au" with
  | some (.string s) =>
    if s = "trustedDeviceSecondaryAuth" then .NeedsDevice2FA
    else if s = "secondaryAuth" then .NeedsSMS2FA
    else if s = "repair" then .LoggedIn
    else .NeedsExtraStep s
  | _ => .LoggedIn

/-- Effect parameters for the part of `login_inner` that follows the step-2
request: the SRP verifier's server-proof check and the composition of
`decrypt_cbc` with plist parsing of the decrypted bytes. -/
structure LoginPostEnv : Type where
  verify : List Nat → Bool
  decryptParse : List Nat → Except AuthErr PDict

/-- Model of `login_inner` from the step-2 response onwards
(src/isideload/src/auth/apple_account.rs lines 473-509).  The first
component of the result is the account's `spd` field after the call
(`spd0` is its prior value); the second is the returned login state or
error.  The source stores the decrypted SPD on the account *before*
reading the `Status` dictionary. -/
def login_inner_post (env : LoginPostEnv) (resp2 : PDict) (spd0 : Option PDict) :
    Option PDict × Except AuthErr LoginState :=
  match get_data resp2 "M2" with
  | .error e => (spd0, .error e)
  | .ok m2 =>
    if env.verify m2 = false then (spd0, .error .negotiationFailed)
    else
      match get_data resp2 "spd" with
      | .error e => (spd0, .error e)
      | .ok spdEnc =>
        match env.decryptParse spdEnc with
        | .error e => (spd0, .error e)
        | .ok spdDict =>
          let spd1 := some spdDict
          match get_dict resp2 "Status" with
          | .error e => (spd1, .error e)
          | .ok status => (spd1, .ok (interpret_au status))

/-- Effect parameters for one run of the 2FA loop in `login`: the results
of `login_inner`, `trusted_device_2fa`, `sms_2fa` and `get_pet().is_ok()`,
indexed by the value of the `attempts` counter at the iteration that
performs the call. -/
structure LoginEnv : Type where
  loginInner : Nat → Except AuthErr LoginState
  device2fa : Nat → Except AuthErr Unit
  sms2fa : Nat → Except AuthErr Unit
  hasPet : Nat → Bool

/-- Model of the 2FA loop inside `login`
(src/isideload/src/auth/apple_account.rs lines 110-156).  Each iteration
first increments `attempts` and bails with `maxLoginAttempts` once the
counter exceeds 10, then dispatches on the current state exactly as the
source `match` does. -/
def login_loop (env : LoginEnv) (st : LoginState) (attempts : Nat) :
    Except AuthErr Unit :=
  let a := attempts + 1
  if a > 10 then .error .maxLoginAttempts
  else
    match st with
    | .LoggedIn => .ok ()
    | .NeedsDevice2FA =>
      match env.device2fa a with
      | .error e => .error e
      | .ok _ => login_loop env .NeedsLogin a
    | .NeedsSMS2FA =>
      match env.sms2fa a with
      | .error e => .error e
      | .ok _ => login_loop env .NeedsLogin a
    | .NeedsExtraStep s =>
      if env.hasPet a then login_loop env .LoggedIn a
      else .error (.extraStep s)
    | .NeedsLogin =>
      match env.loginInner a with
      | .error e => .error e
      | .ok st' => login_loop env st' a
termination_by 11 - attempts
decreasing_by all_goals omega

/-- Companion to `login_loop` that counts how many times the state
`match` of the loop body is executed (the loop's "state iterations"). -/
def login_loop_count (env : LoginEnv) (st : LoginState) (attempts : Nat) : Nat :=
  let a := attempts + 1
  if a > 10 then 0
  else
    match st with
    | .LoggedIn => 1
    | .NeedsDevice2FA =>
      match env.device2fa a with
      | .error _ => 1
      | .ok _ => 1 + login_loop_count env .NeedsLogin a
    | .NeedsSMS2FA =>
      match env.sms2fa a with
      | .error _ => 1
      | .ok _ => 1 + login_loop_count env .NeedsLogin a
    | .NeedsExtraStep _ =>
      if env.hasPet a then 1 + login_loop_count env .LoggedIn a
      else 1
    | .NeedsLogin =>
      match env.loginInner a with
      | .error _ => 1
      | .ok st' => 1 + login_loop_count env st' a
termination_by 11 - attempts
decreasing_by all_goals omega

/-- Model of `AppleAccount::create_session_key`
(src/isideload/src/auth/apple_account.rs lines 615-621): HMAC-SHA256 of
the label under the verifier's SRP session key `K`. -/
def create_session_key (K : List Nat) (name : String) : List Nat :=
  hmacSha256 K (strBytes name)

/-- CBC decryption core: decrypt 16-byte blocks with the block decryption
function `dec`, XORing each result with the previous ciphertext block
(initially the IV).  `fuel` bounds the recursion; `ct.length` suffices. -/
def cbcCore (dec : List Nat → List Nat) : Nat → List Nat → List Nat → List Nat
  | 0, _, _ => []
  | f + 1, prev, ct =>
    if ct = [] then []
    else xorBytes (dec (ct.take 16)) prev ++ cbcCore dec f (ct.take 16) (ct.drop 16)

/-- PKCS#7 unpadding for 16-byte blocks, modelling the
`block_padding::Pkcs7` checks: the final byte `n` must satisfy
`1 ≤ n ≤ 16` and the last `n` bytes must all equal `n`. -/
def pkcs7Unpad (pt : List Nat) : Except AuthErr (List Nat) :=
  match pt.getLast? with
  | none => .error .unpadError
  | some n =>
    if n = 0 || decide (n > 16) || decide (pt.length < n) then .error .unpadError
    else if (pt.drop (pt.length - n)).all (fun b => b == n) then
      .ok (pt.take (pt.length - n))
    else .error .unpadError

/-- Model of `cbc::Decryptor::decrypt_padded_vec::<Pkcs7>`: the ciphertext
must be a whole number of 16-byte blocks; decrypt in CBC mode and strip
PKCS#7 padding. -/
def cbcDecryptPkcs7 (dec : List Nat → List Nat) (iv ct : List Nat) :
    Except AuthErr (List Nat) :=
  if ct.length % 16 ≠ 0 then .error .unpadError
  else pkcs7Unpad (cbcCore dec ct.length iv ct)

/-- Model of `AppleAccount::decrypt_cbc`
(src/isideload/src/auth/apple_account.rs lines 623-632).  `aesDec key
block` abstracts single-block AES-256 decryption under `key`; `K` is the
verifier's SRP session key.  The two length guards model
`new_from_slices`, which fails unless the key is 32 bytes and the IV 16
bytes. -/
def decrypt_cbc (aesDec : List Nat → List Nat → List Nat) (K data : List Nat) :
    Except AuthErr (List Nat) :=
  let extra_data_key := create_session_key K "extra data key:"
  let extra_data_iv := (create_session_key K "extra data iv:").take 16
  if extra_data_key.length ≠ 32 then .error .invalidLength
  else if extra_data_iv.length ≠ 16 then .error .invalidLength
  else cbcDecryptPkcs7 (aesDec extra_data_key) extra_data_iv data

/-- SPD decryption as the spec words it (spec.md §4.3 "SPD decryption"):
AES-256-CBC with PKCS#7 padding under key `HMAC-SHA256(K, "extra data
key:")` and IV `HMAC-SHA256(K, "extra data iv:")[..16]`. -/
def spd_decrypt_spec (aesDec : List Nat → List Nat → List Nat) (K data : List Nat) :
    Except AuthErr (List Nat) :=
  cbcDecryptPkcs7 (aesDec (hmacSha256 K (strBytes "extra data key:")))
    ((hmacSha256 K (strBytes "extra data iv:")).take 16) data

/-- Model of `AppleAccount::decrypt_gcm`
(src/isideload/src/auth/apple_account.rs lines 634-678).  `gcmDec key
nonce aad ct` abstracts AES-256-GCM decryption (ciphertext with appended
tag, associated data `aad`); it is only reached after the length and
magic checks of the source. -/
def decrypt_gcm (gcmDec : List Nat → List Nat → List Nat → List Nat → Except AuthErr (List Nat))
    (data key : List Nat) : Except AuthErr (List Nat) :=
  if data.length < 3 + 16 + 16 then .error (.reportTooShort data.length)
  else
    let header := data.take 3
    if header ≠ strBytes "XYZ" then .error (.reportUnknownFormat header)
    else
      let iv := (data.drop 3).take 16
      let ct := data.drop 19
      if key.length ≠ 32 then .error .invalidLength
      else if iv.length ≠ 16 then .error .invalidLength
      else gcmDec key iv header ct

/-- Model of the SRP password derivation in `login_inner`
(src/isideload/src/auth/apple_account.rs lines 429-439): SHA-256 the
password, hex-encode it exactly when the selected protocol is `s2k_fo`,
then run PBKDF2-HMAC-SHA256 over the salt with `iters as u32` rounds into
a 32-byte buffer. -/
def derived_password (sp : String) (password salt : List Nat) (iters : Int) : List Nat :=
  let hashed := sha256 password
  let ph := if sp = "s2k_fo" then hexLower hashed else hashed
  pbkdf2HmacSha256 ph salt (iters % 4294967296).toNat 32

/-- Password derivation as the spec words it (spec.md §4.3 "Password
hashing"), for a nonnegative iteration count `i` below `2^32`: the
PBKDF2 input is the raw SHA-256 for `s2k` and its lowercase-hex ASCII
bytes for `s2k_fo`. -/
def derived_password_spec (sp : String) (password salt : List Nat) (i : Nat) : List Nat :=
  if sp = "s2k_fo" then pbkdf2HmacSha256 (hexLower (sha256 password)) salt i 32
  else pbkdf2HmacSha256 (sha256 password) salt i 32

/-- Whether `needle` is an initial segment of `hay`. -/
def matchesAt : List Nat → List Nat → Bool
  | [], _ => true
  | _ :: _, [] => false
  | a :: as, b :: bs => a == b && matchesAt as bs

/-- Whether `hay` contains `needle` as a contiguous subsequence, modelling
`str::contains` on the UTF-8 bytes. -/
def containsSeq : List Nat → List Nat → Bool
  | hay, needle =>
    if matchesAt needle hay then true
    else
      match hay with
      | [] => false
      | _ :: t => containsSeq t needle

/-- The magic app-name marker `"com.apple.gs."` as bytes. -/
def comAppleGs : List Nat := strBytes "com.apple.gs."

/-- App-name normalization at the top of `get_app_token`
(src/isideload/src/auth/apple_account.rs lines 512-516): keep the name if
it contains `"com.apple.gs."`, else prepend that marker. -/
def normalize_app (app : List Nat) : List Nat :=
  if containsSeq app comAppleGs then app else comAppleGs ++ app

/-- The `Request` fields of the `apptokens` plist built by
`get_app_token`. -/
structure AppTokensRequest : Type where
  app : List Nat
  c : List Nat
  checksum : List Nat
  u : String
  t : String
deriving DecidableEq

/-- Model of the request-building part of `get_app_token`
(src/isideload/src/auth/apple_account.rs lines 511-562): normalize the
app name, extract `adsid`, `GsIdmsToken`, `sk` and `c` from the SPD in
source order, and compute the checksum as HMAC-SHA256 keyed by `sk` over
`"apptokens" || adsid || app`. -/
def get_app_token_request (spd : PDict) (app : List Nat) :
    Except AuthErr AppTokensRequest :=
  let appN := normalize_app app
  match get_str spd "adsid" with
  | .error e => .error e
  | .ok dsid =>
    match get_str spd "GsIdmsToken" with
    | .error e => .error e
    | .ok auth_token =>
      match get_data spd "sk" with
      | .error e => .error e
      | .ok session_key =>
        match get_data spd "c" with
        | .error e => .error e
        | .ok c =>
          let checksum := hmacSha256 session_key
            (strBytes "apptokens" ++ strBytes dsid ++ appN)
          .ok ⟨appN, c, checksum, dsid, auth_token⟩

/-- Model of `AnisetteData::needs_refresh`
(src/isideload/src/anisette/mod.rs lines 92-96).  `elapsedMs` is the
elapsed time since `generated_at` in milliseconds; `as_secs` truncates it
to whole seconds. -/
def needs_refresh (elapsedMs : Nat) : Bool := elapsedMs / 1000 > 60

/-- Cache decision of `AnisetteDataGenerator::get_anisette_data`
(src/isideload/src/anisette/mod.rs lines 123-152): the cached value is
returned exactly when a cache exists and does not need a refresh;
otherwise data is re-derived from the provider. -/
def get_anisette_data_uses_cache (data : Option Nat) : Bool :=
  match data with
  | some elapsedMs => !needs_refresh elapsedMs
  | none => false

/-- Outcome of a serde-style deserialization: success, a recoverable
deserialization error, or a Rust panic (an `unwrap` on a failed
conversion, which aborts instead of returning `Err`). -/
inductive DeserOutcome (α : Type) : Type where
  | ok (a : α)
  | err
  | crash
deriving DecidableEq

/-- Model of `AnisetteState`
(src/isideload/src/anisette/remote_v3/state.rs lines 40-52). -/
structure AnisetteStateM : Type where
  keychain_identifier : List Nat
  adi_pb : Option (List Nat)
deriving DecidableEq

/-- Model of `bin_deserialize_16`
(src/isideload/src/anisette/remote_v3/state.rs lines 31-38): the field
must be plist data; the `Vec<u8> → [u8; 16]` conversion is followed by
`unwrap()`, so data of any length other than 16 panics rather than
erroring. -/
def bin_deserialize_16 (v : Option PValue) : DeserOutcome (List Nat) :=
  match v with
  | some (.data bs) => if bs.length = 16 then .ok bs else .crash
  | _ => .err

/-- Model of `bin_deserialize_opt`: absent field or data are accepted,
anything else is a deserialization error. -/
def bin_deserialize_opt (v : Option PValue) : DeserOutcome (Option (List Nat)) :=
  match v with
  | some (.data bs) => .ok (some bs)
  | none => .ok none
  | some _ => .err

/-- Deserialization of a stored `AnisetteState` plist dictionary through
the two field deserializers. -/
def parse_anisette_state (d : PDict) : DeserOutcome AnisetteStateM :=
  match bin_deserialize_16 (dGet d "keychain_identifier") with
  | .crash => .crash
  | .err => .err
  | .ok kc =>
    match bin_deserialize_opt (dGet d "adi_pb") with
    | .crash => .crash
    | .err => .err
    | .ok pb => .ok ⟨kc, pb⟩

/-- Model of the state-loading step of `get_state`
(src/isideload/src/anisette/remote_v3/mod.rs lines 155-178): a parsed
state is used as-is, a parse error falls back to a freshly generated
state (`AnisetteState::new()`, abstracted as `fresh`), and a panic during
deserialization propagates. -/
def get_state_load (parsed : DeserOutcome AnisetteStateM) (fresh : AnisetteStateM) :
    DeserOutcome AnisetteStateM :=
  match parsed with
  | .ok st => .ok st
  | .err => .ok fresh
  | .crash => .crash

/-- Fixed effects for the C10 witness: the server proof always verifies
and decryption yields a one-key SPD dictionary. -/
def loginPostEnvW : LoginPostEnv :=
  ⟨fun _ => true, fun _ => .ok [("adsid", PValue.string "A")]⟩

/-- Step-2 response for the C10 witness: `M2` and `spd` present, no
`Status` dictionary. -/
def resp2W : PDict := [("M2", PValue.data [1]), ("spd", PValue.data [2])]

/-- GCM decryption stub for the C7 statements; it is never reached. -/
def gcmDecW : List Nat → List Nat → List Nat → List Nat → Except AuthErr (List Nat) :=
  fun _ _ _ _ => .ok []

/-- SPD dictionary for the C3 witness. -/
def spdW : PDict :=
  [("adsid", PValue.string "A"), ("GsIdmsToken", PValue.string "T"),
   ("sk", PValue.data [7]), ("c", PValue.data [9])]

/-- Loop effects for the C4 counterexample: `login_inner` keeps returning
`NeedsLogin` until its 10th invocation, which returns `LoggedIn`. -/
def loginEnvC : LoginEnv :=
  ⟨fun k => .ok (if k = 10 then .LoggedIn else .NeedsLogin),
   fun _ => .ok (), fun _ => .ok (), fun _ => false⟩

/-- Loop effects for the C4 witness: `login_inner` always returns
`NeedsLogin`. -/
def loginEnvW : LoginEnv :=
  ⟨fun _ => .ok .NeedsLogin, fun _ => .ok (), fun _ => .ok (), fun _ => false⟩

set_option maxRecDepth 8000

/-- Big-endian serialization always yields exactly `n` bytes. -/
theorem toBytesBE_length : ∀ n x : Nat, (toBytesBE n x).length = n
  | 0, _ => rfl
  | k + 1, x => by simp [toBytesBE, toBytesBE_length k]

/-- The serialized hash state is 32 bytes. -/
theorem hash8Bytes_length (st : Hash8) : (hash8Bytes st).length = 32 := by
  simp [hash8Bytes, toBytesBE_length]

/-- SHA-256 always produces 32 bytes. -/
theorem sha256_length (msg : List Nat) : (sha256 msg).length = 32 := by
  simp [sha256, hash8Bytes_length]

/-- HMAC-SHA256 always produces 32 bytes. -/
theorem hmacSha256_length (k m : List Nat) : (hmacSha256 k m).length = 32 := by
  simp [hmacSha256, sha256_length]

/-- Length of a pointwise XOR. -/
theorem xorBytes_length (a b : List Nat) :
    (xorBytes a b).length = min a.length b.length := by
  simp [xorBytes]

/-- The PBKDF2 accumulator keeps its 32-byte length. -/
theorem pbkdf2Go_length (p : List Nat) :
    ∀ (k : Nat) (u acc : List Nat), acc.length = 32 → (pbkdf2Go p k u acc).length = 32
  | 0, _, _, h => h
  | k + 1, u, acc, h => by
    simp only [pbkdf2Go]
    exact pbkdf2Go_length p k _ _
      (by simp [xorBytes_length, h, hmacSha256_length])

/-- Each PBKDF2 block is 32 bytes. -/
theorem pbkdf2Block_length (p s : List Nat) (c i : Nat) :
    (pbkdf2Block p s c i).length = 32 := by
  simp only [pbkdf2Block]
  exact pbkdf2Go_length p _ _ _ (hmacSha256_length _ _)

/-- PBKDF2 with a 32-byte output length yields exactly 32 bytes. -/
theorem pbkdf2_32_length (p s : List Nat) (c : Nat) :
    (pbkdf2HmacSha256 p s c 32).length = 32 := by
  simp [pbkdf2HmacSha256, concatAll, List.length_take, pbkdf2Block_length]

/-- FIPS 180-4 test vector: SHA-256 of the empty message, checked by
kernel evaluation. -/
theorem sha256_vector_empty :
    hexLower (sha256 []) =
      strBytes "e3b0c44298fc1c149afbf4c8996fb92427ae41e4649b934ca495991b7852b855" := by
  decide

/-- FIPS 180-4 test vector: SHA-256 of "abc". -/
theorem sha256_vector_abc :
    hexLower (sha256 (strBytes "abc")) =
      strBytes "ba7816bf8f01cfea414140de5dae2223b00361a396177a9cb410ff61f20015ad" := by
  decide

/-- RFC 4231-style test vector for HMAC-SHA256 with key "key". -/
theorem hmacSha256_vector :
    hexLower (hmacSha256 (strBytes "key")
        (strBytes "The quick brown fox jumps over the lazy dog")) =
      strBytes "f7bc83f430538424b13298e6aa6fb143ef4d59a14946175997479dbc2d1a3cd8" := by
  decide

/-- RFC 7914-style test vector for PBKDF2-HMAC-SHA256 with 1 iteration. -/
theorem pbkdf2_vector_one :
    hexLower (pbkdf2HmacSha256 (strBytes "password") (strBytes "salt") 1 32) =
      strBytes "120fb6cffcf8b32c43e7225256c4f837a86548c92ccc35480805987cb70be17b" := by
  decide

/-- RFC 7914-style test vector for PBKDF2-HMAC-SHA256 with 2 iterations. -/
theorem pbkdf2_vector_two :
    hexLower (pbkdf2HmacSha256 (strBytes "password") (strBytes "salt") 2 32) =
      strBytes "ae4d0c95af6b46d32d0adff928f06dd02a303f8ef3c251dfd6e2d85a95474c43" := by
  decide

/-- C5: `check_grandslam_error` inspects the `Status` sub-dictionary when
present and the dictionary itself otherwise; it fails with
`AuthWithMessage(ec, em)` exactly when the inspected dictionary's `ec`
signed integer is nonzero, with `em` defaulting to "Unknown error" when
absent, and otherwise returns the original dictionary unchanged. -/
theorem check_grandslam_error_correct (D : PDict) :
    (getSignedIntegerOr (grandslamInspected D) "ec" 0 = 0 →
      check_grandslam_error D = .ok D) ∧
    (getSignedIntegerOr (grandslamInspected D) "ec" 0 ≠ 0 →
      check_grandslam_error D = .error
        (.authWithMessage (getSignedIntegerOr (grandslamInspected D) "ec" 0)
          (getStrOr (grandslamInspected D) "em" "Unknown error"))) := by
  constructor
  · intro h
    simp [check_grandslam_error, h]
  · intro h
    cases ho : (dGet (grandslamInspected D) "ec").bind asSignedInteger with
    | none =>
      exfalso
      exact h (by simp [getSignedIntegerOr, ho])
    | some v =>
      have hv0 : getSignedIntegerOr (grandslamInspected D) "ec" 0 = v := by
        simp [getSignedIntegerOr, ho]
      have hv1 : getSignedIntegerOr (grandslamInspected D) "ec" (-1) = v := by
        simp [getSignedIntegerOr, ho]
      rw [hv0] at h ⊢
      simp [check_grandslam_error, hv0, hv1, h]

/-- Witness for C5 at concrete dictionaries: `ec = 0` passes the
dictionary through, a nonzero `ec` inside `Status` fails with the default
message. -/
theorem check_grandslam_error_correct_witness :
    check_grandslam_error [("ec", PValue.integer 0)] = .ok [("ec", PValue.integer 0)] ∧
    check_grandslam_error [("Status", PValue.dict [("ec", PValue.integer 5)])] =
      .error (.authWithMessage 5 "Unknown error") :=
  ⟨(check_grandslam_error_correct [("ec", PValue.integer 0)]).1 rfl,
   (check_grandslam_error_correct
      [("Status", PValue.dict [("ec", PValue.integer 5)])]).2 (by decide)⟩

/-- C6: after a verified SRP step 2 the resulting login state is
determined by `Status.au`: "trustedDeviceSecondaryAuth" yields
`NeedsDevice2FA`, "secondaryAuth" yields `NeedsSMS2FA`, "repair" yields
`LoggedIn`, any other string yields `NeedsExtraStep` of that string, and
an absent `au` yields `LoggedIn`. -/
theorem interpret_au_correct (status : PDict) (s : String) :
    (dGet status "au" = some (.string "trustedDeviceSecondaryAuth") →
      interpret_au status = .NeedsDevice2FA) ∧
    (dGet status "au" = some (.string "secondaryAuth") →
      interpret_au status = .NeedsSMS2FA) ∧
    (dGet status "au" = some (.string "repair") →
      interpret_au status = .LoggedIn) ∧
    (dGet status "au" = some (.string s) →
      s ≠ "trustedDeviceSecondaryAuth" → s ≠ "secondaryAuth" → s ≠ "repair" →
      interpret_au status = .NeedsExtraStep s) ∧
    (dGet status "au" = none → interpret_au status = .LoggedIn) := by
  refine ⟨?_, ?_, ?_, ?_, ?_⟩
  · intro h; simp [interpret_au, h]
  · intro h; simp [interpret_au, h]
  · intro h; simp [interpret_au, h]
  · intro h h1 h2 h3; simp [interpret_au, h, h1, h2, h3]
  · intro h; simp [interpret_au, h]

/-- Witness for C6 at concrete `Status` dictionaries covering the
"repair", unknown-string and absent cases. -/
theorem interpret_au_correct_witness :
    interpret_au [("au", PValue.string "repair")] = .LoggedIn ∧
    interpret_au [("au", PValue.string "mailVerify")] = .NeedsExtraStep "mailVerify" ∧
    interpret_au [] = .LoggedIn :=
  ⟨(interpret_au_correct [("au", PValue.string "repair")] "").2.2.1 rfl,
   (interpret_au_correct [("au", PValue.string "mailVerify")] "mailVerify").2.2.2.1
     rfl (by decide) (by decide) (by decide),
   (interpret_au_correct [] "").2.2.2.2 rfl⟩

/-- C10: when the server proof verifies and the SPD payload decrypts and
parses, `login_inner` stores the decrypted SPD on the account before
reading the step-2 `Status` dictionary, so a missing `Status` yields an
error while the new SPD stays stored. -/
theorem login_inner_post_stores_spd (env : LoginPostEnv) (resp2 : PDict)
    (spd0 : Option PDict) (m2 spdEnc : List Nat) (spdDict : PDict)
    (h1 : get_data resp2 "M2" = .ok m2)
    (h2 : env.verify m2 = true)
    (h3 : get_data resp2 "spd" = .ok spdEnc)
    (h4 : env.decryptParse spdEnc = .ok spdDict) :
    (login_inner_post env resp2 spd0).1 = some spdDict ∧
    (∀ e, get_dict resp2 "Status" = .error e →
      (login_inner_post env resp2 spd0).2 = .error e) := by
  constructor
  · cases hs : get_dict resp2 "Status" with
    | ok status => simp [login_inner_post, h1, h2, h3, h4, hs]
    | error e => simp [login_inner_post, h1, h2, h3, h4, hs]
  · intro e he
    simp [login_inner_post, h1, h2, h3, h4, he]

/-- Witness for C10: on a step-2 response without `Status`, the model
returns the missing-key error yet the SPD field holds the decrypted
dictionary. -/
theorem login_inner_post_stores_spd_witness :
    (login_inner_post loginPostEnvW resp2W none).1 = some [("adsid", PValue.string "A")] ∧
    (login_inner_post loginPostEnvW resp2W none).2 =
      .error (.missingKey "dictionary" "Status") := by
  have h := login_inner_post_stores_spd loginPostEnvW resp2W none [1] [2]
    [("adsid", PValue.string "A")] rfl rfl rfl rfl
  exact ⟨h.1, h.2 _ rfl⟩

/-- C2: `create_session_key(K, N)` is `HMAC-SHA256(K, N)` and is 32
bytes, and `decrypt_cbc` decrypts the SPD in CBC mode with PKCS#7
padding, key `HMAC-SHA256(K, "extra data key:")` and IV the first 16
bytes of `HMAC-SHA256(K, "extra data iv:")`, for any block cipher
`aesDec` standing in for AES-256. -/
theorem create_session_key_correct (K : List Nat) (N : String)
    (aesDec : List Nat → List Nat → List Nat) (data : List Nat) :
    create_session_key K N = hmacSha256 K (strBytes N) ∧
    (create_session_key K N).length = 32 ∧
    decrypt_cbc aesDec K data = spd_decrypt_spec aesDec K data := by
  refine ⟨rfl, hmacSha256_length _ _, ?_⟩
  simp [decrypt_cbc, spd_decrypt_spec, create_session_key, hmacSha256_length,
    List.length_take]

/-- C7 (amended): `decrypt_gcm` rejects blobs shorter than 35 bytes with
the ad-hoc "too short" report and blobs whose first 3 bytes are not
`"XYZ"` with the ad-hoc "unknown format" report, in both cases for every
possible GCM decryption function, i.e. before any decryption is
attempted. -/
theorem decrypt_gcm_rejects
    (gcmDec : List Nat → List Nat → List Nat → List Nat → Except AuthErr (List Nat))
    (data key : List Nat) :
    (data.length < 35 →
      decrypt_gcm gcmDec data key = .error (.reportTooShort data.length)) ∧
    (35 ≤ data.length → data.take 3 ≠ strBytes "XYZ" →
      decrypt_gcm gcmDec data key = .error (.reportUnknownFormat (data.take 3))) := by
  constructor
  · intro h
    simp only [decrypt_gcm]
    rw [if_pos (by omega)]
  · intro h hm
    simp only [decrypt_gcm]
    rw [if_neg (by omega), if_pos hm]

/-- Counterexample for C7 as stated: on a 35-byte blob of zeros the magic
check fails with the ad-hoc report "Encrypted token is in an unknown
format: ...", which is not the typed `AuthWithMessage(0, "unknown
format")` the claim names. -/
theorem decrypt_gcm_error_kind_counterexample :
    decrypt_gcm gcmDecW (List.replicate 35 0) [] =
      .error (.reportUnknownFormat [0, 0, 0]) ∧
    (AuthErr.reportUnknownFormat [0, 0, 0] ≠ .authWithMessage 0 "unknown format") := by
  exact ⟨rfl, fun h => nomatch h⟩

/-- Witness for C7 (amended) at two concrete blobs: a 1-byte blob is too
short, and 35 zero bytes fail the magic check. -/
theorem decrypt_gcm_rejects_witness :
    decrypt_gcm gcmDecW [0] [] = .error (.reportTooShort 1) ∧
    decrypt_gcm gcmDecW (List.replicate 35 0) [] =
      .error (.reportUnknownFormat (List.take 3 (List.replicate 35 0))) :=
  ⟨(decrypt_gcm_rejects gcmDecW [0] []).1 (by decide),
   (decrypt_gcm_rejects gcmDecW (List.replicate 35 0) []).2 (by simp) (by decide)⟩

/-- C1: for a selected protocol in {"s2k", "s2k_fo"} and an iteration
count in the `u32` range, the derived key computed by `login_inner`
equals PBKDF2-HMAC-SHA256 over the salt applied to the raw SHA-256 of
the password for `s2k` and to its lowercase-hex ASCII encoding for
`s2k_fo`, and is 32 bytes. -/
theorem derived_password_correct (sp : String) (password salt : List Nat) (i : Int)
    (hsp : sp = "s2k" ∨ sp = "s2k_fo") (h0 : 0 ≤ i) (h32 : i < 4294967296) :
    derived_password sp password salt i = derived_password_spec sp password salt i.toNat ∧
    (derived_password sp password salt i).length = 32 := by
  have hmod : (i % 4294967296).toNat = i.toNat := by omega
  constructor
  · rcases hsp with h | h <;> subst h <;>
      simp [derived_password, derived_password_spec, hmod]
  · simp [derived_password, pbkdf2_32_length]

/-- Witness for C1 at both protocol strings with a small concrete
password, salt and iteration count. -/
theorem derived_password_correct_witness :
    derived_password "s2k" (strBytes "pw") [1, 2] 2 =
      derived_password_spec "s2k" (strBytes "pw") [1, 2] 2 ∧
    derived_password "s2k_fo" (strBytes "pw") [1, 2] 2 =
      derived_password_spec "s2k_fo" (strBytes "pw") [1, 2] 2 :=
  ⟨(derived_password_correct "s2k" (strBytes "pw") [1, 2] 2
      (Or.inl rfl) (by decide) (by decide)).1,
   (derived_password_correct "s2k_fo" (strBytes "pw") [1, 2] 2
      (Or.inr rfl) (by decide) (by decide)).1⟩

/-- C3: `get_app_token` keeps an app name containing "com.apple.gs." and
prepends that marker otherwise, and the checksum sent in the `apptokens`
request is HMAC-SHA256 keyed by the SPD's `sk` over
`"apptokens" || adsid || normalized_name`. -/
theorem get_app_token_request_correct (spd : PDict) (app : List Nat)
    (dsid tok : String) (sk c : List Nat)
    (h1 : get_str spd "adsid" = .ok dsid)
    (h2 : get_str spd "GsIdmsToken" = .ok tok)
    (h3 : get_data spd "sk" = .ok sk)
    (h4 : get_data spd "c" = .ok c) :
    get_app_token_request spd app = .ok ⟨normalize_app app, c,
      hmacSha256 sk (strBytes "apptokens" ++ strBytes dsid ++ normalize_app app),
      dsid, tok⟩ ∧
    (containsSeq app comAppleGs = true → normalize_app app = app) ∧
    (containsSeq app comAppleGs = false → normalize_app app = comAppleGs ++ app) := by
  refine ⟨?_, ?_, ?_⟩
  · simp [get_app_token_request, h1, h2, h3, h4]
  · intro h; simp [normalize_app, h]
  · intro h; simp [normalize_app, h]

/-- Witness for C3 at a concrete SPD and the app name "xcode.auth",
which lacks the marker and is therefore prefixed by normalization. -/
theorem get_app_token_request_correct_witness :
    get_app_token_request spdW (strBytes "xcode.auth") = .ok
      ⟨normalize_app (strBytes "xcode.auth"), [9],
       hmacSha256 [7] (strBytes "apptokens" ++ strBytes "A" ++
         normalize_app (strBytes "xcode.auth")), "A", "T"⟩ ∧
    normalize_app (strBytes "xcode.auth") = comAppleGs ++ strBytes "xcode.auth" := by
  have h := get_app_token_request_correct spdW (strBytes "xcode.auth")
    "A" "T" [7] [9] rfl rfl rfl rfl
  exact ⟨h.1, h.2.2 (by decide)⟩

/-- C8 (amended): `get_anisette_data` returns the cached `AnisetteData`
exactly when the elapsed time since `generated_at`, truncated to whole
seconds, is at most 60 — that is, strictly less than 61 seconds — and
re-derives fresh data from the provider otherwise (including when no
cache exists). -/
theorem get_anisette_data_cache_window (elapsedMs : Nat) :
    (get_anisette_data_uses_cache (some elapsedMs) = true ↔ elapsedMs < 61000) ∧
    get_anisette_data_uses_cache none = false := by
  refine ⟨?_, rfl⟩
  simp only [get_anisette_data_uses_cache, needs_refresh, Bool.not_eq_eq_eq_not,
    Bool.not_true, decide_eq_false_iff_not, not_lt]
  omega

/-- Counterexample for C8 as stated: at an elapsed time of exactly 60
seconds the code still serves the cache, although 60 s is not strictly
less than 60 s. -/
theorem get_anisette_data_cache_counterexample :
    get_anisette_data_uses_cache (some 60000) = true ∧ ¬(60000 < 60000) := by
  decide

/-- C9 (code bug): a stored state whose `keychain_identifier` data is not
exactly 16 bytes makes `bin_deserialize_16` panic through
`try_into().unwrap()` instead of being regenerated, while a state blob
that fails deserialization cleanly is replaced by the fresh state. -/
theorem anisette_state_malformed_panics :
    parse_anisette_state [("keychain_identifier", PValue.data (List.replicate 15 0))] =
      .crash ∧
    get_state_load
      (parse_anisette_state [("keychain_identifier", PValue.data (List.replicate 15 0))])
      ⟨List.replicate 16 0, none⟩ = .crash ∧
    get_state_load .err ⟨List.replicate 16 0, none⟩ = .ok ⟨List.replicate 16 0, none⟩ := by
  refine ⟨?_, ?_, rfl⟩ <;> rfl

/-- One loop iteration from `NeedsDevice2FA` with a successful handler. -/
theorem login_loop_step_dev (env : LoginEnv) (a : Nat) (h : ¬(a + 1 > 10))
    (hd : env.device2fa (a + 1) = .ok ()) :
    login_loop env .NeedsDevice2FA a = login_loop env .NeedsLogin (a + 1) := by
  rw [login_loop, if_neg h, hd]

/-- One loop iteration from `NeedsSMS2FA` with a successful handler. -/
theorem login_loop_step_sms (env : LoginEnv) (a : Nat) (h : ¬(a + 1 > 10))
    (hs : env.sms2fa (a + 1) = .ok ()) :
    login_loop env .NeedsSMS2FA a = login_loop env .NeedsLogin (a + 1) := by
  rw [login_loop, if_neg h, hs]

/-- One loop iteration from `NeedsLogin` with `login_inner` succeeding. -/
theorem login_loop_step_li (env : LoginEnv) (a : Nat) (h : ¬(a + 1 > 10))
    (st' : LoginState) (hl : env.loginInner (a + 1) = .ok st') :
    login_loop env .NeedsLogin a = login_loop env st' (a + 1) := by
  rw [login_loop, if_neg h, hl]

/-- Iteration count of one step from `NeedsDevice2FA`. -/
theorem login_loop_count_step_dev (env : LoginEnv) (a : Nat) (h : ¬(a + 1 > 10))
    (hd : env.device2fa (a + 1) = .ok ()) :
    login_loop_count env .NeedsDevice2FA a =
      1 + login_loop_count env .NeedsLogin (a + 1) := by
  rw [login_loop_count, if_neg h, hd]

/-- Iteration count of one step from `NeedsSMS2FA`. -/
theorem login_loop_count_step_sms (env : LoginEnv) (a : Nat) (h : ¬(a + 1 > 10))
    (hs : env.sms2fa (a + 1) = .ok ()) :
    login_loop_count env .NeedsSMS2FA a =
      1 + login_loop_count env .NeedsLogin (a + 1) := by
  rw [login_loop_count, if_neg h, hs]

/-- Iteration count of one step from `NeedsLogin`. -/
theorem login_loop_count_step_li (env : LoginEnv) (a : Nat) (h : ¬(a + 1 > 10))
    (st' : LoginState) (hl : env.loginInner (a + 1) = .ok st') :
    login_loop_count env .NeedsLogin a = 1 + login_loop_count env st' (a + 1) := by
  rw [login_loop_count, if_neg h, hl]

/-- Helper: under handlers that always succeed and `login_inner` results
that are never `LoggedIn` or `NeedsExtraStep`, the loop always exhausts
its attempt budget, executing one state iteration per remaining attempt. -/
theorem login_loop_exhaust (env : LoginEnv)
    (hdev : ∀ k, env.device2fa k = .ok ())
    (hsms : ∀ k, env.sms2fa k = .ok ())
    (hli : ∀ k, env.loginInner k = .ok .NeedsDevice2FA ∨
      env.loginInner k = .ok .NeedsSMS2FA ∨ env.loginInner k = .ok .NeedsLogin) :
    ∀ (n a : Nat) (st : LoginState), a + n = 10 →
      (st = .NeedsDevice2FA ∨ st = .NeedsSMS2FA ∨ st = .NeedsLogin) →
      login_loop env st a = .error .maxLoginAttempts ∧
      login_loop_count env st a = n := by
  intro n
  induction n with
  | zero =>
    intro a st ha hst
    have h11 : a + 1 > 10 := by omega
    rcases hst with h | h | h <;> subst h <;>
      exact ⟨by rw [login_loop, if_pos h11], by rw [login_loop_count, if_pos h11]⟩
  | succ n ih =>
    intro a st ha hst
    have hle : ¬(a + 1 > 10) := by omega
    have ha' : (a + 1) + n = 10 := by omega
    have ihL := ih (a + 1) .NeedsLogin ha' (Or.inr (Or.inr rfl))
    rcases hst with h | h | h <;> subst h
    · rw [login_loop_step_dev env a hle (hdev (a + 1)),
        login_loop_count_step_dev env a hle (hdev (a + 1)), ihL.1, ihL.2]
      exact ⟨rfl, by omega⟩
    · rw [login_loop_step_sms env a hle (hsms (a + 1)),
        login_loop_count_step_sms env a hle (hsms (a + 1)), ihL.1, ihL.2]
      exact ⟨rfl, by omega⟩
    · rcases hli (a + 1) with hl | hl | hl
      · have ihD := ih (a + 1) .NeedsDevice2FA ha' (Or.inl rfl)
        rw [login_loop_step_li env a hle _ hl,
          login_loop_count_step_li env a hle _ hl, ihD.1, ihD.2]
        exact ⟨rfl, by omega⟩
      · have ihS := ih (a + 1) .NeedsSMS2FA ha' (Or.inr (Or.inl rfl))
        rw [login_loop_step_li env a hle _ hl,
          login_loop_count_step_li env a hle _ hl, ihS.1, ihS.2]
        exact ⟨rfl, by omega⟩
      · rw [login_loop_step_li env a hle _ hl,
          login_loop_count_step_li env a hle _ hl, ihL.1, ihL.2]
        exact ⟨rfl, by omega⟩

/-- C4 (amended): when every 2FA handler succeeds and `login_inner` only
returns non-terminal states, the loop aborts with the exhausted-attempts
error after exactly 10 state iterations; and a `LoggedIn` state returns
`Ok` immediately whenever it is seen at one of those first 10
iterations (at the 11th attempt check, exhaustion takes precedence even
over `LoggedIn`). -/
theorem login_loop_bound (env : LoginEnv) (st : LoginState)
    (hdev : ∀ k, env.device2fa k = .ok ())
    (hsms : ∀ k, env.sms2fa k = .ok ())
    (hli : ∀ k, env.loginInner k = .ok .NeedsDevice2FA ∨
      env.loginInner k = .ok .NeedsSMS2FA ∨ env.loginInner k = .ok .NeedsLogin)
    (hst : st = .NeedsDevice2FA ∨ st = .NeedsSMS2FA ∨ st = .NeedsLogin) :
    login_loop env st 0 = .error .maxLoginAttempts ∧
    login_loop_count env st 0 = 10 ∧
    (∀ (env' : LoginEnv) (a : Nat), a + 1 ≤ 10 →
      login_loop env' .LoggedIn a = .ok ()) := by
  have h := login_loop_exhaust env hdev hsms hli 10 0 st (by omega) hst
  refine ⟨h.1, h.2, ?_⟩
  intro env' a ha
  rw [login_loop, if_neg (by omega)]

/-- Counterexample for C4 as stated: a run whose 10th iteration
transitions to `LoggedIn` still aborts exhausted, because the attempts
check precedes the state dispatch; so it is not true that the loop
returns `Ok` whenever the state is `LoggedIn`. -/
theorem login_loop_logged_in_boundary_counterexample :
    login_loop loginEnvC .NeedsLogin 0 = .error .maxLoginAttempts ∧
    loginEnvC.loginInner 10 = .ok .LoggedIn ∧
    login_loop loginEnvC .LoggedIn 10 = .error .maxLoginAttempts ∧
    login_loop loginEnvC .LoggedIn 10 ≠ .ok () := by
  refine ⟨?_, rfl, ?_, ?_⟩
  · simp [login_loop, loginEnvC]
  · rw [login_loop, if_pos (by omega)]
  · rw [login_loop, if_pos (by omega)]
    simp

/-- Witness for C4 (amended) at a concrete environment that never
reaches `LoggedIn`: the loop exhausts after exactly 10 iterations, and a
`LoggedIn` state at the first iteration returns `Ok`. -/
theorem login_loop_bound_witness :
    login_loop loginEnvW .NeedsLogin 0 = .error .maxLoginAttempts ∧
    login_loop_count loginEnvW .NeedsLogin 0 = 10 ∧
    login_loop loginEnvW .LoggedIn 0 = .ok () := by
  have h := login_loop_bound loginEnvW .NeedsLogin (fun _ => rfl) (fun _ => rfl)
    (fun _ => Or.inr (Or.inr rfl)) (Or.inr (Or.inr rfl))
  exact ⟨h.1, h.2.1, h.2.2 loginEnvW 0 (by omega)⟩
